import Mathlib

/-!
Shallow embedding of the carla-multiplayer repository (files
`carla_multiplayer/sensor.py`, `carla_multiplayer/controller.py`,
`carla_multiplayer/controller_gamepad.py`) and proofs about it.

Queues (`queue.Queue`) are modelled as Lean lists with the head as the
oldest element; floats are modelled as rationals; raised exceptions are
modelled with `Option`/`Except`.
-/

set_option autoImplicit false

namespace CarlaMultiplayer

universe u

variable {α : Type u}

/-- Python `queue.Queue.put_nowait`: raises `Full` (here `none`) exactly when
`0 < maxsize ≤ len(queue)`; `maxsize = 0` means unbounded. On success the item
is appended at the back (the head of the list is the oldest item). -/
def put_nowait (maxsize : Nat) (q : List α) (x : α) : Option (List α) :=
  if maxsize = 0 ∨ q.length < maxsize then some (q ++ [x]) else none

/-- Python `queue.Queue.get_nowait`: raises `Empty` (here `none`) when the
queue is empty, otherwise removes and returns the oldest item. -/
def get_nowait (q : List α) : Option (α × List α) :=
  match q with
  | [] => none
  | x :: rest => some (x, rest)

/-- The body of the retry loop in `Sensor._add_image_to_carla_images_queue`
(sensor.py lines 121-129), run with the stop flag clear: `try
put_nowait(image); break; except Full: try get_nowait() except Empty: pass`
and retry.  The `except Full` handler is `get_nowait`, inlined here as a match
on the queue: on `[]` it raises `Empty`, which is passed (in the source that
state would loop forever, but it is unreachable because `put_nowait` only
raises `Full` on a nonempty queue); otherwise the oldest item is removed and
the loop retries. -/
def add_image_loop (maxsize : Nat) (q : List α) (x : α) : List α :=
  if maxsize = 0 ∨ q.length < maxsize then q ++ [x]
  else
    match q with
    | [] => q
    | _ :: rest => add_image_loop maxsize rest x
termination_by q.length
decreasing_by simp

/-- The loop above written literally with `put_nowait` / `get_nowait`: try the
insert, and on `Full` remove one oldest item (passing on `Empty`) and retry. -/
theorem add_image_loop_put_nowait (maxsize : Nat) (q : List α) (x : α) :
    add_image_loop maxsize q x =
      match put_nowait maxsize q x with
      | some q1 => q1
      | none =>
        match get_nowait q with
        | none => q
        | some pr => add_image_loop maxsize pr.2 x := by
  rw [add_image_loop.eq_def]
  by_cases hc : maxsize = 0 ∨ q.length < maxsize
  · simp [put_nowait, hc]
  · simp only [put_nowait, if_neg hc]
    cases q with
    | nil => simp [get_nowait]
    | cons a t => simp [get_nowait]

/-- `Sensor._add_image_to_carla_images_queue` (sensor.py lines 120-129):
`while not self._stop_event.is_set(): <retry body>`.  `stop` is the value of
`self._stop_event.is_set()`, held fixed (no concurrent mutation), so checking
it once before the loop body is equivalent to the source's per-iteration
check: when set, zero iterations run and the queue is untouched. -/
def add_image_to_carla_images_queue (stop : Bool) (maxsize : Nat) (q : List α) (x : α) :
    List α :=
  if stop then q else add_image_loop maxsize q x

/-- A sequence of frame arrivals pushed through the drop-oldest callback. -/
def push_all (stop : Bool) (maxsize : Nat) (q : List α) (xs : List α) : List α :=
  xs.foldl (add_image_to_carla_images_queue stop maxsize) q

/-- The last `n` elements of a list, in order. -/
def lastN (n : Nat) (l : List α) : List α :=
  l.drop (l.length - n)

theorem add_image_not_stopped (maxsize : Nat) (q : List α) (x : α) :
    add_image_to_carla_images_queue false maxsize q x = add_image_loop maxsize q x := by
  simp [add_image_to_carla_images_queue]

theorem add_image_loop_of_not_full (maxsize : Nat) (q : List α) (x : α)
    (h : maxsize = 0 ∨ q.length < maxsize) :
    add_image_loop maxsize q x = q ++ [x] := by
  rw [add_image_loop.eq_def, if_pos h]

theorem add_image_loop_of_full (maxsize : Nat) (a : α) (t : List α) (x : α)
    (h : maxsize = t.length + 1) :
    add_image_loop maxsize (a :: t) x = t ++ [x] := by
  rw [add_image_loop.eq_def]
  have hfull : ¬ (maxsize = 0 ∨ (a :: t).length < maxsize) := by
    simp only [List.length_cons]
    omega
  rw [if_neg hfull]
  exact add_image_loop_of_not_full maxsize t x (Or.inr (by omega))

theorem add_image_eq_lastN (maxsize : Nat) (hm : 1 ≤ maxsize) (q : List α) (x : α)
    (hq : q.length ≤ maxsize) :
    add_image_to_carla_images_queue false maxsize q x = lastN maxsize (q ++ [x]) := by
  rw [add_image_not_stopped]
  rcases lt_or_eq_of_le hq with hlt | heq
  · rw [add_image_loop_of_not_full maxsize q x (Or.inr hlt)]
    simp only [lastN, List.length_append, List.length_cons, List.length_nil, Nat.zero_add]
    have h0 : q.length + 1 - maxsize = 0 := by omega
    simp [h0]
  · cases q with
    | nil =>
      simp only [List.length_nil] at heq
      omega
    | cons a t =>
      have hms : maxsize = t.length + 1 := by
        simp only [List.length_cons] at heq
        omega
      rw [add_image_loop_of_full maxsize a t x hms]
      simp only [lastN]
      have hd : ((a :: t) ++ [x]).length - maxsize = 1 := by
        simp only [List.length_append, List.length_cons, List.length_nil]
        omega
      rw [hd]
      simp

theorem lastN_length_le (n : Nat) (l : List α) : (lastN n l).length ≤ n := by
  simp only [lastN, List.length_drop]
  omega

theorem lastN_drop (n d : Nat) (m : List α) (h : d + n ≤ m.length) :
    lastN n (m.drop d) = lastN n m := by
  simp only [lastN, List.length_drop, List.drop_drop]
  have harg : d + (m.length - d - n) = m.length - n := by omega
  rw [harg]

theorem lastN_append_left (n : Nat) (l xs : List α) :
    lastN n (lastN n l ++ xs) = lastN n (l ++ xs) := by
  by_cases hl : l.length ≤ n
  · have h0 : l.length - n = 0 := by omega
    simp [lastN, h0]
  · push_neg at hl
    have hdrop : lastN n l ++ xs = (l ++ xs).drop (l.length - n) := by
      rw [List.drop_append_eq_append_drop]
      have h2 : l.length - n - l.length = 0 := by omega
      simp [lastN, h2]
    rw [hdrop, lastN_drop]
    simp only [List.length_append]
    omega

theorem push_all_eq_lastN (maxsize : Nat) (hm : 1 ≤ maxsize) (xs : List α) :
    ∀ q : List α, q.length ≤ maxsize →
      push_all false maxsize q xs = lastN maxsize (q ++ xs) := by
  induction xs with
  | nil =>
    intro q hq
    simp only [push_all, List.foldl_nil, List.append_nil, lastN]
    have h0 : q.length - maxsize = 0 := by omega
    simp [h0]
  | cons x xs ih =>
    intro q hq
    simp only [push_all, List.foldl_cons]
    rw [add_image_eq_lastN maxsize hm q x hq]
    have hlen : (lastN maxsize (q ++ [x])).length ≤ maxsize := lastN_length_le _ _
    have hih := ih (lastN maxsize (q ++ [x])) hlen
    simp only [push_all] at hih
    rw [hih, lastN_append_left]
    simp

/-- C1: for every capacity `N ≥ 1` and every sequence of pushes exceeding `N`,
performed with the stop flag not set and no consumer running, the drop-oldest
push loop of `Sensor._add_image_to_carla_images_queue` leaves the queue holding
exactly the last `N` pushed items, in push (FIFO) order. -/
theorem drop_oldest_queue_keeps_last_N (N : Nat) (hN : 1 ≤ N) (xs : List Nat)
    (hlen : N < xs.length) :
    push_all false N [] xs = xs.drop (xs.length - N) ∧
      (push_all false N [] xs).length = N := by
  have h := push_all_eq_lastN N hN xs [] (by simp)
  simp only [List.nil_append] at h
  refine ⟨h, ?_⟩
  rw [h]
  simp only [lastN, List.length_drop]
  omega

/-- C1 witness: pushing F1, F2, F3 (as 1, 2, 3) into a capacity-2 queue with
the stop flag clear leaves exactly [F2, F3]. -/
theorem drop_oldest_queue_keeps_last_N_witness :
    push_all false 2 [] [1, 2, 3] = [2, 3] ∧ (push_all false 2 [] [1, 2, 3]).length = 2 := by
  have h := drop_oldest_queue_keeps_last_N 2 (by decide) [1, 2, 3] (by decide)
  constructor
  · rw [h.1]
    rfl
  · exact h.2

/-! ## Controller model (controller.py) -/

/-- `ControllerState` (controller.py lines 15-21): NamedTuple of the six
control fields; floats modelled as rationals. -/
structure ControllerState where
  throttle : ℚ
  brake : ℚ
  steer : ℚ
  hand_brake : Bool
  reverse : Bool
  reset : Bool
deriving DecidableEq

/-- `handle_steer_deadzone` (controller.py lines 24-28):
`if -0.16 <= steer <= 0.16: steer = 0.0; return steer`. -/
def handle_steer_deadzone (steer : ℚ) : ℚ :=
  if -(16/100 : ℚ) ≤ steer ∧ steer ≤ 16/100 then 0 else steer

/-- Values appearing in the JSON object written by `json.dumps` for a
`ControllerState._asdict()`: numbers and booleans. -/
inductive JValue where
  | num (q : ℚ)
  | bool (b : Bool)
deriving DecidableEq

/-- `ControllerState._asdict()`: the ordered field-name/value record of the
NamedTuple. -/
def ControllerState.asdict (s : ControllerState) : List (String × JValue) :=
  [("throttle", .num s.throttle), ("brake", .num s.brake), ("steer", .num s.steer),
   ("hand_brake", .bool s.hand_brake), ("reverse", .bool s.reverse),
   ("reset", .bool s.reset)]

/-- `serialize_controller_state` (controller.py lines 35-36):
`json.dumps(controller_state._asdict()).encode('utf-8')`.  The UTF-8 JSON
text is modelled at the level of the flat key/value record it encodes (JSON
writing then parsing of a dict of finite floats and booleans is exact). -/
def serialize_controller_state (s : ControllerState) : List (String × JValue) :=
  s.asdict

/-- Lookup of one key in a parsed JSON object, as used by the keyword
expansion `ControllerState(**d)`. -/
def lookupKey (k : String) (d : List (String × JValue)) : Option JValue :=
  (d.find? (fun p => p.1 == k)).map (fun p => p.2)

/-- `deserialize_controller_state` (controller.py lines 31-32):
`ControllerState(**json.loads(data.decode('utf-8')))`; constructing the
NamedTuple raises unless every field is supplied, so the result is `none`
unless all six keys are present with suitably shaped values. -/
def deserialize_controller_state (data : List (String × JValue)) : Option ControllerState :=
  match lookupKey "throttle" data, lookupKey "brake" data, lookupKey "steer" data,
      lookupKey "hand_brake" data, lookupKey "reverse" data, lookupKey "reset" data with
  | some (.num throttle), some (.num brake), some (.num steer), some (.bool hb),
      some (.bool rev), some (.bool rst) =>
    some ⟨throttle, brake, steer, hb, rev, rst⟩
  | _, _, _, _, _, _ => none

/-- C4: `handle_steer_deadzone` returns exactly 0 on every input in the
inclusive range [-0.16, 0.16] and returns every other input unchanged; in
particular 0.17 and -0.17 pass through unchanged. -/
theorem steer_deadzone_snaps_and_passes (x : ℚ) :
    (-(16/100) ≤ x → x ≤ 16/100 → handle_steer_deadzone x = 0) ∧
    (¬ (-(16/100) ≤ x ∧ x ≤ 16/100) → handle_steer_deadzone x = x) ∧
    handle_steer_deadzone (17/100) = 17/100 ∧
    handle_steer_deadzone (-(17/100)) = -(17/100) := by
  refine ⟨fun h1 h2 => ?_, fun h => ?_, ?_, ?_⟩
  · simp [handle_steer_deadzone, h1, h2]
  · simp [handle_steer_deadzone, h]
  · norm_num [handle_steer_deadzone]
  · norm_num [handle_steer_deadzone]

/-- C4 witness: 0.05 (inside the deadzone) snaps to 0; 0.5 (outside) passes
through unchanged. -/
theorem steer_deadzone_snaps_and_passes_witness :
    handle_steer_deadzone (5/100) = 0 ∧ handle_steer_deadzone (1/2) = 1/2 :=
  ⟨(steer_deadzone_snaps_and_passes (5/100)).1 (by norm_num) (by norm_num),
   (steer_deadzone_snaps_and_passes (1/2)).2.1 (by norm_num)⟩

/-- C3: deserialize after serialize is the identity on every ControllerState. -/
theorem serialize_deserialize_roundtrip (s : ControllerState) :
    deserialize_controller_state (serialize_controller_state s) = some s := rfl

/-! ## Rounding (Python `round(x, 2)`) -/

/-- Python `round` to an integer on our rational model of floats: nearest
integer, ties to the even integer (Python rounds half to even). -/
def round_half_even (q : ℚ) : ℤ :=
  if q - ⌊q⌋ < 1/2 then ⌊q⌋
  else if 1/2 < q - ⌊q⌋ then ⌊q⌋ + 1
  else if ⌊q⌋ % 2 = 0 then ⌊q⌋ else ⌊q⌋ + 1

/-- Python `round(x, 2)`: round to the nearest multiple of 0.01. -/
def round2 (q : ℚ) : ℚ := (round_half_even (q * 100) : ℚ) / 100

theorem round_half_even_cases (q : ℚ) :
    round_half_even q = ⌊q⌋ ∨ (round_half_even q = ⌊q⌋ + 1 ∧ 1/2 ≤ q - ⌊q⌋) := by
  unfold round_half_even
  split
  · exact Or.inl rfl
  · next h1 =>
    push_neg at h1
    split
    · next h2 => exact Or.inr ⟨rfl, le_of_lt h2⟩
    · split
      · exact Or.inl rfl
      · exact Or.inr ⟨rfl, h1⟩

theorem round_half_even_bounds (q : ℚ) (lo hi : ℤ) (hlo : (lo : ℚ) ≤ q)
    (hhi : q ≤ (hi : ℚ)) :
    lo ≤ round_half_even q ∧ round_half_even q ≤ hi := by
  have hfl : lo ≤ ⌊q⌋ := Int.le_floor.mpr hlo
  have hfh : ⌊q⌋ ≤ hi := by
    have h := Int.floor_le_floor hhi
    simpa using h
  rcases round_half_even_cases q with h | ⟨h, hhalf⟩
  · rw [h]
    exact ⟨hfl, hfh⟩
  · rw [h]
    have hfq : (⌊q⌋ : ℚ) + 1/2 ≤ q := by linarith
    have hlt : (⌊q⌋ : ℚ) < (hi : ℚ) := by linarith
    have hlt2 : ⌊q⌋ < hi := by exact_mod_cast hlt
    omega

theorem round2_bounds (x : ℚ) (h0 : 0 ≤ x) (h1 : x ≤ 1) :
    0 ≤ round2 x ∧ round2 x ≤ 1 := by
  have hb := round_half_even_bounds (x * 100) 0 100 (by push_cast; linarith)
    (by push_cast; linarith)
  unfold round2
  have hlo : (0 : ℚ) ≤ (round_half_even (x * 100) : ℚ) := by exact_mod_cast hb.1
  have hhi : (round_half_even (x * 100) : ℚ) ≤ 100 := by exact_mod_cast hb.2
  constructor
  · exact div_nonneg hlo (by norm_num)
  · rw [div_le_one (by norm_num)]
    exact hhi

/-! ## Input adapter (`_GamepadController`, controller.py lines 92-161; the
same code appears as `GamepadController` in controller_gamepad.py). -/

/-- `RawControllerState` (controller.py lines 39-42): the per-device snapshot
dictionaries.  They are modelled as total maps because
`ControllerEventHandler.__init__` fills every index of each dict. -/
structure RawControllerState where
  axis_data : Nat → Option ℚ
  button_data : Nat → Bool
  hat_data : Nat → Int × Int

/-- `_GamepadController._handle_callback` (controller.py lines 117-158).
Input: the current sticky `self._reverse` and the raw snapshot; output: the
derived `ControllerState` and the updated `self._reverse` (the source mutates
`self._reverse` before building the return value, so the returned state's
`reverse` field is the updated value). -/
def handle_callback (reverse : Bool) (cs : RawControllerState) : ControllerState × Bool :=
  let throttle : ℚ :=
    match cs.axis_data 5 with
    | some v => round2 ((v + 1) / 2)
    | none => 0
  let brake : ℚ :=
    match cs.axis_data 4 with
    | some v => round2 ((v + 1) / 2)
    | none => 0
  let steer : ℚ :=
    match cs.axis_data 0 with
    | some v => round2 v
    | none => 0
  let hb : Bool := cs.button_data 0
  let select_forward : Bool := cs.button_data 11
  let select_reverse : Bool := cs.button_data 12
  let reverse1 : Bool :=
    if select_forward then false else if select_reverse then true else reverse
  let reset : Bool := cs.button_data 6
  (⟨throttle, brake, handle_steer_deadzone steer, hb, reverse1, reset⟩, reverse1)

/-- The mutable state of `_GamepadController`: the sticky `self._reverse` and
`self._last_controller_state`. -/
structure AdapterState where
  reverse : Bool
  last_controller_state : Option ControllerState
deriving DecidableEq

/-- `_GamepadController.__init__` (controller.py lines 104-106):
`self._reverse = False`, `self._last_controller_state = None`. -/
def initAdapterState : AdapterState := ⟨false, none⟩

/-- `_GamepadController._callback_wrapper` (controller.py lines 108-115):
derive a candidate state (this also updates the sticky reverse), drop it if it
equals the last emitted state, otherwise pass it to the downstream callback
and record it.  Returns the updated adapter state and the emission, if any. -/
def callback_wrapper (st : AdapterState) (raw : RawControllerState) :
    AdapterState × Option ControllerState :=
  let res := handle_callback st.reverse raw
  if some res.1 = st.last_controller_state then
    (⟨res.2, st.last_controller_state⟩, none)
  else
    (⟨res.2, some res.1⟩, some res.1)

/-- A raw snapshot with every axis unset, every button released and the hats
centered (the state `ControllerEventHandler.__init__` builds). -/
def neutralRaw : RawControllerState :=
  ⟨fun _ => none, fun _ => false, fun _ => (0, 0)⟩

/-- C5: the derived reverse field is sticky: a forward press (button 11) is
checked first and clears it regardless of button 12; otherwise a reverse
press (button 12) sets it; otherwise the previous value is kept.  The state's
`reverse` field always equals the updated sticky flag. -/
theorem reverse_sticky (rev : Bool) (raw : RawControllerState) :
    (handle_callback rev raw).1.reverse = (handle_callback rev raw).2 ∧
    (raw.button_data 11 = true → (handle_callback rev raw).2 = false) ∧
    (raw.button_data 11 = false → raw.button_data 12 = true →
      (handle_callback rev raw).2 = true) ∧
    (raw.button_data 11 = false → raw.button_data 12 = false →
      (handle_callback rev raw).2 = rev) := by
  refine ⟨rfl, fun h11 => ?_, fun h11 h12 => ?_, fun h11 h12 => ?_⟩
  · simp [handle_callback, h11]
  · simp [handle_callback, h11, h12]
  · simp [handle_callback, h11, h12]

/-- C5 witness: with both select buttons pressed and the sticky flag
previously true, the derived reverse is false (forward wins); with neither
pressed it retains the previous value. -/
theorem reverse_sticky_witness :
    (handle_callback true ⟨fun _ => none, fun _ => true, fun _ => (0, 0)⟩).2 = false ∧
    (handle_callback true neutralRaw).2 = true :=
  ⟨(reverse_sticky true ⟨fun _ => none, fun _ => true, fun _ => (0, 0)⟩).2.1 rfl,
   (reverse_sticky true neutralRaw).2.2.2 rfl rfl⟩

/-- Modelled from the spec: `clamp01` from §4.5 rule 1 ("throttle =
clamp01((axis[throttle] + 1)/2)"); the code has no explicit clamp, so this is
the spec-side function the code is compared against. -/
def spec_clamp01 (q : ℚ) : ℚ := max 0 (min 1 q)

theorem spec_clamp01_of_mem (x : ℚ) (h0 : 0 ≤ x) (h1 : x ≤ 1) : spec_clamp01 x = x := by
  unfold spec_clamp01
  rw [min_eq_right h1, max_eq_right h0]

/-- C8: derived throttle is 0 when axis 5 is unset; when axis 5 holds
`v ∈ [-1, 1]` it equals `clamp01((v + 1)/2)` rounded to 2 decimals and lies
in `[0, 1]`. -/
theorem throttle_derivation (rev : Bool) (raw : RawControllerState) :
    (raw.axis_data 5 = none → (handle_callback rev raw).1.throttle = 0) ∧
    (∀ v : ℚ, raw.axis_data 5 = some v → -1 ≤ v → v ≤ 1 →
      (handle_callback rev raw).1.throttle = round2 (spec_clamp01 ((v + 1) / 2)) ∧
      0 ≤ (handle_callback rev raw).1.throttle ∧
      (handle_callback rev raw).1.throttle ≤ 1) := by
  constructor
  · intro h5
    simp [handle_callback, h5]
  · intro v h5 hlo hhi
    have hmem0 : (0 : ℚ) ≤ (v + 1) / 2 := by linarith
    have hmem1 : (v + 1) / 2 ≤ 1 := by linarith
    have hthr : (handle_callback rev raw).1.throttle = round2 ((v + 1) / 2) := by
      simp [handle_callback, h5]
    have hb := round2_bounds _ hmem0 hmem1
    rw [hthr, spec_clamp01_of_mem _ hmem0 hmem1]
    exact ⟨rfl, hb.1, hb.2⟩

/-- C8 witness: axis 5 at 0.5 gives throttle 0.75 within bounds; an unset
axis gives 0. -/
theorem throttle_derivation_witness :
    ((handle_callback false
        ⟨fun i => if i == 5 then some (1/2) else none, fun _ => false,
          fun _ => (0, 0)⟩).1.throttle
      = round2 (spec_clamp01 ((1/2 + 1) / 2)) ∧
      0 ≤ (handle_callback false
        ⟨fun i => if i == 5 then some (1/2) else none, fun _ => false,
          fun _ => (0, 0)⟩).1.throttle ∧
      (handle_callback false
        ⟨fun i => if i == 5 then some (1/2) else none, fun _ => false,
          fun _ => (0, 0)⟩).1.throttle ≤ 1) ∧
    (handle_callback false neutralRaw).1.throttle = 0 :=
  ⟨(throttle_derivation false
      ⟨fun i => if i == 5 then some (1/2) else none, fun _ => false,
        fun _ => (0, 0)⟩).2 (1/2) rfl (by norm_num) (by norm_num),
   (throttle_derivation false neutralRaw).1 rfl⟩

theorem handle_callback_update_idem (rev : Bool) (r : RawControllerState) :
    handle_callback (handle_callback rev r).2 r = handle_callback rev r := by
  cases h11 : r.button_data 11 <;> cases h12 : r.button_data 12 <;>
    simp [handle_callback, h11, h12]

/-- C6: two consecutive raw updates whose derived states are equal, the first
of which differs from the last-emitted state (so the first derivation fires
the callback), invoke the downstream callback exactly once: the first update
emits and records the state, the second is discarded with no callback and
the recorded state unchanged. -/
theorem dedup_consecutive_equal (st : AdapterState) (r1 r2 : RawControllerState)
    (hfirst : some (handle_callback st.reverse r1).1 ≠ st.last_controller_state)
    (heq : (handle_callback (callback_wrapper st r1).1.reverse r2).1
      = (handle_callback st.reverse r1).1) :
    (callback_wrapper st r1).2 = some (handle_callback st.reverse r1).1 ∧
    (callback_wrapper (callback_wrapper st r1).1 r2).2 = none ∧
    (callback_wrapper (callback_wrapper st r1).1 r2).1.last_controller_state
      = some (handle_callback st.reverse r1).1 := by
  have hst1 : callback_wrapper st r1 =
      (⟨(handle_callback st.reverse r1).2, some (handle_callback st.reverse r1).1⟩,
        some (handle_callback st.reverse r1).1) := by
    simp only [callback_wrapper]
    rw [if_neg hfirst]
  rw [hst1] at heq ⊢
  simp only at heq
  refine ⟨rfl, ?_, ?_⟩
  · simp only [callback_wrapper, heq]
    simp
  · simp only [callback_wrapper, heq]
    simp

/-- C6 witness: from the initial adapter state, two identical neutral raw
updates fire the callback exactly once. -/
theorem dedup_consecutive_equal_witness :
    (callback_wrapper initAdapterState neutralRaw).2
      = some (handle_callback initAdapterState.reverse neutralRaw).1 ∧
    (callback_wrapper (callback_wrapper initAdapterState neutralRaw).1 neutralRaw).2
      = none ∧
    (callback_wrapper (callback_wrapper initAdapterState neutralRaw).1
        neutralRaw).1.last_controller_state
      = some (handle_callback initAdapterState.reverse neutralRaw).1 :=
  dedup_consecutive_equal initAdapterState neutralRaw neutralRaw
    (by simp [initAdapterState])
    (by simp [callback_wrapper, initAdapterState, handle_callback, neutralRaw])

/-- C10: the derived state ignores hat data: raw snapshots agreeing on all
axis and button entries derive (from the same sticky reverse) identical
states under the same reverse update, and a raw update differing from the
previous, emitted one only in hat data is always discarded by the dedup
check, with the last-emitted record unchanged. -/
theorem hat_data_independence (rev : Bool) (st : AdapterState)
    (r1 r2 : RawControllerState)
    (haxis : ∀ i, r1.axis_data i = r2.axis_data i)
    (hbtn : ∀ i, r1.button_data i = r2.button_data i)
    (hemit : (callback_wrapper st r1).2 ≠ none) :
    handle_callback rev r1 = handle_callback rev r2 ∧
    (callback_wrapper (callback_wrapper st r1).1 r2).2 = none ∧
    (callback_wrapper (callback_wrapper st r1).1 r2).1.last_controller_state
      = (callback_wrapper st r1).1.last_controller_state := by
  have hA : ∀ rv : Bool, handle_callback rv r1 = handle_callback rv r2 := by
    intro rv
    simp only [handle_callback, haxis 5, haxis 4, haxis 0, hbtn 0, hbtn 11, hbtn 12,
      hbtn 6]
  have hst1 : (callback_wrapper st r1).1 =
      ⟨(handle_callback st.reverse r1).2, some (handle_callback st.reverse r1).1⟩ := by
    simp only [callback_wrapper] at hemit ⊢
    by_cases hc : some (handle_callback st.reverse r1).1 = st.last_controller_state
    · simp [hc] at hemit
    · rw [if_neg hc]
  have hres2 : handle_callback (handle_callback st.reverse r1).2 r2
      = handle_callback st.reverse r1 := by
    rw [← hA]
    exact handle_callback_update_idem st.reverse r1
  refine ⟨hA rev, ?_, ?_⟩
  · rw [hst1]
    simp only [callback_wrapper, hres2]
    simp
  · rw [hst1]
    simp only [callback_wrapper, hres2]
    simp

/-- C10 witness: after the first emission from the initial state, a hat-only
change produces no further emission. -/
theorem hat_data_independence_witness :
    handle_callback false neutralRaw
      = handle_callback false ⟨fun _ => none, fun _ => false, fun _ => (1, 0)⟩ ∧
    (callback_wrapper (callback_wrapper initAdapterState neutralRaw).1
        ⟨fun _ => none, fun _ => false, fun _ => (1, 0)⟩).2 = none ∧
    (callback_wrapper (callback_wrapper initAdapterState neutralRaw).1
        ⟨fun _ => none, fun _ => false, fun _ => (1, 0)⟩).1.last_controller_state
      = (callback_wrapper initAdapterState neutralRaw).1.last_controller_state :=
  hat_data_independence false initAdapterState neutralRaw
    ⟨fun _ => none, fun _ => false, fun _ => (1, 0)⟩
    (fun _ => rfl) (fun _ => rfl)
    (by simp [callback_wrapper, initAdapterState])

/-! ## Fixed-rate publisher (`GamepadController`, controller.py lines 164-196) -/

/-- The exceptions a `queue.Queue` operation raises: `queue.Full` and
`queue.Empty` (both imported by controller.py / sensor.py). -/
inductive QueueError where
  | full
  | empty
deriving DecidableEq

/-- `try: <body> except Empty: pass` (controller.py lines 187-193): the
handler catches only `queue.Empty`; any other exception propagates. -/
def tryExceptEmpty (body : Except QueueError Unit) : Except QueueError Unit :=
  match body with
  | .error .empty => .ok ()
  | r => r

/-- `GamepadController._work` (controller.py lines 183-193).  `st` is
`self._controller_state`; if it is `None` the tick returns at once.
Otherwise the serialized state addressed to `(self._host, self._port)` is
handed to `self._sender.send_datagram`.  Modelled from the spec:
`udp.Sender.send_datagram` itself (module `carla_multiplayer/udp.py` is not
among the sources; per §4.3 the publish step is a non-blocking enqueue into a
bounded queue that can signal "queue full"), so `sendOutcome` stands for what
that call does at this tick: return, or raise.  The result is the datagram
handed to the sender (if any) paired with the outcome of the tick (the
exception escaping `_work`, if any). -/
def GamepadController.work (host : String) (port : Nat)
    (st : Option ControllerState) (sendOutcome : Except QueueError Unit) :
    Option (List (String × JValue) × String × Nat) × Except QueueError Unit :=
  match st with
  | none => (none, .ok ())
  | some s => (some (serialize_controller_state s, host, port), tryExceptEmpty sendOutcome)

/-- An event at the fixed-rate publisher: one timer tick (`_work`), or one
derived-state arrival via `_set_controller_state` (controller.py lines
180-181, the adapter callback). -/
inductive PublisherEvent where
  | tick
  | input (cs : ControllerState)

/-- Run `GamepadController` over a sequence of ticks and state arrivals
(sends succeed), collecting the datagrams handed to the sender. -/
def run_publisher (host : String) (port : Nat) (st : Option ControllerState) :
    List PublisherEvent → List (List (String × JValue) × String × Nat)
  | [] => []
  | .tick :: rest =>
    match (GamepadController.work host port st (.ok ())).1 with
    | none => run_publisher host port st rest
    | some d => d :: run_publisher host port st rest
  | .input cs :: rest => run_publisher host port (some cs) rest

theorem run_publisher_no_input (host : String) (port : Nat) :
    ∀ evts : List PublisherEvent,
      (∀ cs : ControllerState, PublisherEvent.input cs ∉ evts) →
      run_publisher host port none evts = [] := by
  intro evts
  induction evts with
  | nil => intro _; rfl
  | cons e rest ih =>
    intro h
    cases e with
    | tick =>
      simp only [run_publisher, GamepadController.work]
      exact ih (fun cs hmem => h cs (List.mem_cons_of_mem _ hmem))
    | input cs => exact absurd (List.mem_cons_self _ _) (h cs)

theorem run_publisher_ticks_some (host : String) (port : Nat) (s : ControllerState) :
    ∀ n : Nat, run_publisher host port (some s) (List.replicate n .tick)
      = List.replicate n (serialize_controller_state s, host, port) := by
  intro n
  induction n with
  | zero => rfl
  | succ k ih =>
    simp only [List.replicate_succ, run_publisher, GamepadController.work]
    rw [ih]

/-- C7: a tick with no state set hands nothing to the sender; a tick with a
state set hands exactly the serialization of the most recently set state
addressed to the configured host and port; a trace with no input events sends
zero datagrams; after an input event every subsequent tick sends the latest
state. -/
theorem fixed_rate_publisher_ticks (host : String) (port : Nat) :
    (GamepadController.work host port none (.ok ())).1 = none ∧
    (∀ s : ControllerState, (GamepadController.work host port (some s) (.ok ())).1
      = some (serialize_controller_state s, host, port)) ∧
    (∀ evts : List PublisherEvent,
      (∀ cs : ControllerState, PublisherEvent.input cs ∉ evts) →
      run_publisher host port none evts = []) ∧
    (∀ (cs : ControllerState) (n : Nat),
      run_publisher host port none (.input cs :: List.replicate n .tick)
        = List.replicate n (serialize_controller_state cs, host, port)) :=
  ⟨rfl, fun _ => rfl, run_publisher_no_input host port,
   fun cs n => run_publisher_ticks_some host port cs n⟩

/-- C7 witness: two bare ticks send nothing; an input followed by two ticks
sends the serialized input state twice. -/
theorem fixed_rate_publisher_ticks_witness :
    run_publisher "peer" 9999 none [.tick, .tick] = [] ∧
    run_publisher "peer" 9999 none
        [.input ⟨0, 0, 0, false, false, false⟩, .tick, .tick]
      = [(serialize_controller_state ⟨0, 0, 0, false, false, false⟩, "peer", 9999),
         (serialize_controller_state ⟨0, 0, 0, false, false, false⟩, "peer", 9999)] := by
  have h := fixed_rate_publisher_ticks "peer" 9999
  constructor
  · refine h.2.2.1 [.tick, .tick] ?_
    intro cs hmem
    simp at hmem
  · have h4 := h.2.2.2 ⟨0, 0, 0, false, false, false⟩ 2
    simpa using h4

/-- C2 (the claim fails on the code): the `try` around `send_datagram` in
`GamepadController._work` catches only `queue.Empty`, so when the enqueue
step signals a full queue the tick does not return normally: the `Full`
exception escapes `_work`.  (The analogous call in
`Sensor._send_datagrams_from_webp_bytes_queue`, sensor.py lines 157-160, is
guarded by `except Full` — catching `Empty` here is a slip.)  For contrast,
the second conjunct shows an `Empty` outcome is swallowed. -/
theorem work_full_escapes :
    (GamepadController.work "peer" 9999 (some ⟨0, 0, 0, false, false, false⟩)
        (.error .full)).2 = .error .full ∧
    (GamepadController.work "peer" 9999 (some ⟨0, 0, 0, false, false, false⟩)
        (.error .empty)).2 = .ok () :=
  ⟨rfl, rfl⟩

end CarlaMultiplayer
